import Mathlib

/-!
Shallow embedding of scripts/staging/tcp-vsock-forwarder.py, a TCP to VSOCK
forwarder for Nitro Enclaves.  Every socket system call is modelled by an
explicit oracle: the value the operating system returns at that call site.
CPython runtime behaviour the script relies on is modelled where marked in
the doc comments: the length bound of recv, the idempotence of
socket.close, int() parsing of command line strings, and the exit status of
an uncaught exception.
-/

namespace TcpVsockForwarder

/-- Embeds get_local_cid (lines 19 to 27).  The whole body of the try block
(socket creation, getsockopt, struct.unpack) is one oracle: either an
integer CID or a raised exception.  On success the queried CID is returned;
the except branch prints a log line and returns the fallback 2, which is
VMADDR_CID_HYPERVISOR.  The second component is the log line, if any. -/
def get_local_cid (query : Except String Nat) : Nat × Option String :=
  match query with
  | Except.ok cid => (cid, none)
  | Except.error e => (2, some ("Error getting local CID: " ++ e))

/-- Models a CPython socket object as seen by close(): either it still owns
a file descriptor or it has already been closed. -/
structure PyConn where
  isOpen : Bool
  deriving DecidableEq, Repr

/-- Models CPython socket.close(): the first close releases the descriptor
and may surface an operating system error (the oracle osErr); every later
close finds the descriptor already detached and is a no-op that raises
nothing. -/
def pyClose (osErr : Option String) (c : PyConn) : PyConn × Option String :=
  if c.isOpen then ({ isOpen := false }, osErr) else (c, none)

/-- Which of the two session sockets a close call targets: the accepted
client socket or the dialed VSOCK peer socket. -/
inductive CloseOp
  | closeClient
  | closePeer
  deriving DecidableEq, Repr

/-- State of the two sockets shared by the two copy threads of one relay
session. -/
structure SessConns where
  client : PyConn
  peer : PyConn
  deriving DecidableEq, Repr

/-- Runs a sequence of close calls, as produced by any interleaving of the
two finally clauses of a session (each thread closes both sockets, lines 61
to 63).  Each entry carries the operating system oracle for that call.  The
result records, per call, whether the socket was already closed and what
the call raised. -/
def runCloses : List (CloseOp × Option String) → SessConns →
    SessConns × List (Bool × Option String)
  | [], s => (s, [])
  | (CloseOp.closeClient, e) :: rest, s =>
    let already := !s.client.isOpen
    let c := pyClose e s.client
    let r := runCloses rest { client := c.1, peer := s.peer }
    (r.1, (already, c.2) :: r.2)
  | (CloseOp.closePeer, e) :: rest, s =>
    let already := !s.peer.isOpen
    let c := pyClose e s.peer
    let r := runCloses rest { client := s.client, peer := c.1 }
    (r.1, (already, c.2) :: r.2)

/-- Result of one recv call on the source socket: either data (an empty
list means EOF) or a raised exception. -/
inductive RecvResult
  | ok (data : List Nat)
  | exn (e : String)
  deriving DecidableEq, Repr

/-- Result of one sendall call on the destination socket: either all bytes
were handed to the kernel or an exception was raised. -/
inductive SendResult
  | sent
  | exn (e : String)
  deriving DecidableEq, Repr

/-- How a run of the copy loop of forward ends.  blocked means the loop is
still suspended in recv or sendall (its oracle trace ran out), so the try
block has not exited. -/
inductive TermKind
  | eof
  | readErr (e : String)
  | writeErr (e : String)
  | blocked
  deriving DecidableEq, Repr

def TermKind.isBlocked : TermKind → Bool
  | TermKind.blocked => true
  | _ => false

def TermKind.errOf : TermKind → Option String
  | TermKind.readErr e => some e
  | TermKind.writeErr e => some e
  | _ => none

/-- Embeds the while loop of forward (lines 54 to 58) against a trace of
recv oracles and sendall oracles.  recv(4096) returns at most 4096 bytes,
modelled by take 4096 on the oracle data.  An empty read breaks the loop
(EOF); a recv exception or a sendall exception aborts it; an exhausted
oracle trace leaves the loop blocked.  Returns the chunks successfully
passed to sendall, in order, and how the loop ended. -/
def forwardLoop : List RecvResult → List SendResult →
    List (List Nat) × TermKind
  | [], _ => ([], TermKind.blocked)
  | RecvResult.exn e :: _, _ => ([], TermKind.readErr e)
  | RecvResult.ok d :: rs, sends =>
    let data := d.take 4096
    if data.isEmpty then ([], TermKind.eof)
    else
      match sends with
      | [] => ([], TermKind.blocked)
      | SendResult.exn e :: _ => ([], TermKind.writeErr e)
      | SendResult.sent :: ss =>
        let r := forwardLoop rs ss
        (data :: r.1, r.2)

/-- State of the two sockets and the propagated error after the finally
clause of one copy thread has run. -/
structure CloseBothResult where
  src : PyConn
  dst : PyConn
  raised : Option String
  deriving DecidableEq, Repr

/-- Embeds the finally clause of forward (lines 61 to 63) as the two
sequential statements src.close() and dst.close(): if the first close
raises an operating-system error, the second statement is never executed
and the error propagates out of the finally clause; each close call has
the CPython semantics of pyClose (the descriptor is detached even when the
call raises, and a close on an already-closed socket is a no-op). -/
def closeBoth (srcErr dstErr : Option String) (src dst : PyConn) :
    CloseBothResult :=
  let c1 := pyClose srcErr src
  match c1.2 with
  | some e => { src := c1.1, dst := dst, raised := some e }
  | none =>
    let c2 := pyClose dstErr dst
    { src := c1.1, dst := c2.1, raised := c2.2 }

/-- Observable outcome of one copy thread running forward.  srcClosed and
dstClosed record whether each socket is closed afterwards; closeRaised is
the error, if any, that escaped the finally clause. -/
structure ForwardOutcome where
  writes : List (List Nat)
  term : TermKind
  errPrinted : Option String
  srcClosed : Bool
  dstClosed : Bool
  closeRaised : Option String
  deriving DecidableEq, Repr

/-- Embeds forward (lines 52 to 63).  The except branch prints the error;
the finally clause runs whenever the try block exits, that is whenever the
loop terminated for any reason, and then executes src.close() followed by
dst.close() via closeBoth, so a raising source close skips the destination
close.  src and dst are the states of the two sockets when the finally
clause runs (the sibling thread may already have closed them); srcErr and
dstErr are the operating-system oracles of the two close calls.  While the
loop is blocked the finally clause has not run and the socket states are
unchanged. -/
def forward (recvs : List RecvResult) (sends : List SendResult)
    (src dst : PyConn) (srcErr dstErr : Option String) : ForwardOutcome :=
  let r := forwardLoop recvs sends
  if r.2.isBlocked then
    { writes := r.1
      term := r.2
      errPrinted := r.2.errOf
      srcClosed := !src.isOpen
      dstClosed := !dst.isOpen
      closeRaised := none }
  else
    let f := closeBoth srcErr dstErr src dst
    { writes := r.1
      term := r.2
      errPrinted := r.2.errOf
      srcClosed := !f.src.isOpen
      dstClosed := !f.dst.isOpen
      closeRaised := f.raised }

/-- Embeds the pair of threads t1 and t2 (lines 65 to 70): both run the
same function forward, with the client and VSOCK sockets in swapped roles.
The first component is the TCP to VSOCK direction (reads from the client,
writes to the peer); the second is the reverse direction.  client and peer
are the socket states each thread sees at its finally clause, and the four
Option String arguments are the operating-system oracles of the four close
calls (t1 closes client then peer; t2 closes peer then client). -/
def relaySession (clientReads : List RecvResult) (peerSends : List SendResult)
    (peerReads : List RecvResult) (clientSends : List SendResult)
    (client peer : PyConn) (e1 e2 e3 e4 : Option String) :
    ForwardOutcome × ForwardOutcome :=
  (forward clientReads peerSends client peer e1 e2,
   forward peerReads clientSends peer client e3 e4)

/-- Outcome of the dial performed inline in the accept loop (lines 46 to
48): the socket.socket call at line 46 may raise (outside the inner try),
the connect call at line 48 may raise (inside the inner try), connect may
block indefinitely, or the dial succeeds. -/
inductive DialResult
  | ok
  | sockErr (e : String)
  | connErr (e : String)
  | stalled
  deriving DecidableEq, Repr

/-- One iteration of the accept loop as decided by the oracles: either the
accept call raises, or a client connection is accepted and dialing has the
given outcome.  relayStalls records whether the relay session spawned for
this connection would run forever; the loop itself never looks at it. -/
inductive AcceptEvent
  | acceptErr (e : String)
  | conn (dial : DialResult) (relayStalls : Bool)
  deriving DecidableEq, Repr

def AcceptEvent.dialStalls : AcceptEvent → Bool
  | AcceptEvent.conn DialResult.stalled _ => true
  | _ => false

/-- What one iteration of the accept loop did.  acceptErrLogged: the accept
call raised and the outer handler (line 76) logged it.  sockErrLogged: the
VSOCK socket creation raised after a client was accepted; the same outer
handler logged it and the client socket was NOT closed.  connErrClientClosed:
connect raised; the inner handler (lines 72 to 74) logged it and closed the
client socket.  sessionStarted: two daemon threads were spawned for the
relay.  dialBlocked: the loop thread is stuck inside connect and processes
nothing further. -/
inductive EventOutcome
  | acceptErrLogged (e : String)
  | sockErrLogged (e : String)
  | connErrClientClosed (e : String)
  | sessionStarted (relayStalls : Bool)
  | dialBlocked
  deriving DecidableEq, Repr

/-- Whether the accept loop handler of this outcome explicitly closed the
accepted client socket. -/
def EventOutcome.closesClient : EventOutcome → Bool
  | EventOutcome.connErrClientClosed _ => true
  | _ => false

/-- Whether this outcome spawned a relay session. -/
def EventOutcome.startsSession : EventOutcome → Bool
  | EventOutcome.sessionStarted _ => true
  | _ => false

/-- Embeds the accept loop (lines 40 to 77) over an oracle trace of accept
events.  Every raised exception is caught inside the loop, so the loop
continues with the rest of the trace; only a dial that blocks forever stops
the loop thread from reaching the next accept, because the connect call
runs inline on the accept loop (line 48), not on a spawned thread. -/
def runLoop : List AcceptEvent → List EventOutcome
  | [] => []
  | AcceptEvent.acceptErr e :: rest => EventOutcome.acceptErrLogged e :: runLoop rest
  | AcceptEvent.conn (DialResult.sockErr e) _ :: rest =>
    EventOutcome.sockErrLogged e :: runLoop rest
  | AcceptEvent.conn (DialResult.connErr e) _ :: rest =>
    EventOutcome.connErrClientClosed e :: runLoop rest
  | AcceptEvent.conn DialResult.stalled _ :: _ => [EventOutcome.dialBlocked]
  | AcceptEvent.conn DialResult.ok b :: rest =>
    EventOutcome.sessionStarted b :: runLoop rest

/-- Oracles consumed by forward_tcp_to_vsock: the results of bind and
listen on the server socket and the trace of accept loop events. -/
structure ServerEnv where
  bindRes : Except String Unit
  listenRes : Except String Unit
  events : List AcceptEvent
  deriving Repr

/-- Observable outcome of forward_tcp_to_vsock.  returned records whether
the function came back to its caller; the finally clause (line 82) closes
the server socket exactly when it does. -/
structure ServerRun where
  bound : Bool
  serverErrPrinted : Option String
  serverClosed : Bool
  outcomes : List EventOutcome
  returned : Bool
  deriving Repr

/-- Embeds forward_tcp_to_vsock (lines 29 to 82).  A bind or listen
exception is caught by the outer handler (line 79), which prints a Server
error line; the finally clause then closes the server socket and the
function returns.  When bind and listen succeed the accept loop runs
forever: the function does not return and the finally clause has not run
while the loop is alive. -/
def forward_tcp_to_vsock (env : ServerEnv) : ServerRun :=
  match env.bindRes with
  | Except.error e =>
    { bound := false, serverErrPrinted := some ("Server error: " ++ e)
      serverClosed := true, outcomes := [], returned := true }
  | Except.ok _ =>
    match env.listenRes with
    | Except.error e =>
      { bound := true, serverErrPrinted := some ("Server error: " ++ e)
        serverClosed := true, outcomes := [], returned := true }
    | Except.ok _ =>
      { bound := true, serverErrPrinted := none, serverClosed := false
        outcomes := runLoop env.events, returned := false }

def isAsciiSpace (c : Char) : Bool :=
  c = ' ' || c = '\t' || c = '\n' || c = '\r'

def stripEnds (cs : List Char) : List Char :=
  ((cs.dropWhile isAsciiSpace).reverse.dropWhile isAsciiSpace).reverse

/-- Checks that a run of characters is a nonempty decimal digit string in
which single underscores may stand between digits, as CPython int()
accepts.  The flag records whether the previous character was a digit. -/
def digitsOk : List Char → Bool → Bool
  | [], prevDigit => prevDigit
  | c :: rest, prevDigit =>
    if c.isDigit then digitsOk rest true
    else if c = '_' then prevDigit && digitsOk rest false
    else false

def natOfDigits (cs : List Char) : Nat :=
  cs.foldl (fun a c => 10 * a + (c.toNat - 48)) 0

/-- Models CPython int() applied to a command line string (lines 90 to 92):
surrounding ASCII whitespace is stripped, an optional sign precedes a
nonempty run of decimal digits in which single underscores may separate
digits; any other string raises ValueError, modelled as none. -/
def pyParseInt (s : String) : Option Int :=
  match stripEnds s.toList with
  | [] => none
  | c :: rest =>
    if c = '+' then
      if digitsOk rest false then
        some (natOfDigits (rest.filter (fun x => x ≠ '_'))) else none
    else if c = '-' then
      if digitsOk rest false then
        some (-(natOfDigits (rest.filter (fun x => x ≠ '_')) : Int)) else none
    else
      if digitsOk (c :: rest) false then
        some (natOfDigits ((c :: rest).filter (fun x => x ≠ '_'))) else none

/-- Observable outcome of one run of the __main__ block.  exit is the
process exit status, none while the process is still running; socketCreated
records whether any socket call was reached. -/
structure MainRun where
  usagePrinted : Bool
  exit : Option Nat
  socketCreated : Bool
  localCid : Option Nat
  server : Option ServerRun
  deriving Repr

def MainRun.exitedNonzero (r : MainRun) : Bool :=
  match r.exit with
  | some c => decide (c ≠ 0)
  | none => false

/-- Embeds the __main__ block (lines 84 to 99).  argv includes the program
name, so exactly three positional arguments means an argv of length 4.  A
wrong arity prints the usage lines to standard output and calls
sys.exit(1).  An int() failure on any of the three arguments raises an
uncaught ValueError, on which CPython exits with status 1, before any
socket exists.  Otherwise the banner is printed, get_local_cid runs, which
reaches a socket call, and forward_tcp_to_vsock runs; the process then
exits with status 0 exactly if that function returns, which happens only
when bind or listen failed. -/
def pyMain (argv : List String) (cidQuery : Except String Nat)
    (env : ServerEnv) : MainRun :=
  if argv.length ≠ 4 then
    { usagePrinted := true, exit := some 1, socketCreated := false
      localCid := none, server := none }
  else
    match pyParseInt (argv.getD 1 "") with
    | none =>
      { usagePrinted := false, exit := some 1, socketCreated := false
        localCid := none, server := none }
    | some _ =>
      match pyParseInt (argv.getD 2 "") with
      | none =>
        { usagePrinted := false, exit := some 1, socketCreated := false
          localCid := none, server := none }
      | some _ =>
        match pyParseInt (argv.getD 3 "") with
        | none =>
          { usagePrinted := false, exit := some 1, socketCreated := false
            localCid := none, server := none }
        | some _ =>
          let run := forward_tcp_to_vsock env
          { usagePrinted := false
            exit := if run.returned then some 0 else none
            socketCreated := true
            localCid := some (get_local_cid cidQuery).1
            server := some run }

theorem forwardLoop_clean (cs : List (List Nat)) (restR : List RecvResult)
    (restS : List SendResult)
    (h : ∀ c ∈ cs, c.isEmpty = false ∧ c.length ≤ 4096) :
    forwardLoop (cs.map RecvResult.ok ++ RecvResult.ok [] :: restR)
      (List.replicate cs.length SendResult.sent ++ restS)
      = (cs, TermKind.eof) := by
  induction cs with
  | nil => simp [forwardLoop]
  | cons c cstl ih =>
    obtain ⟨hemp, hlen⟩ := h c (by simp)
    have htake : c.take 4096 = c := List.take_of_length_le hlen
    have ih' := ih (fun x hx => h x (by simp [hx]))
    simp [forwardLoop, htake, hemp, List.replicate_succ, ih']

theorem forwardLoop_chunk_le (recvs : List RecvResult) :
    ∀ (sends : List SendResult) (w : List Nat),
      w ∈ (forwardLoop recvs sends).1 → w.length ≤ 4096 := by
  induction recvs with
  | nil => intro sends w hw; simp [forwardLoop] at hw
  | cons r rs ih =>
    intro sends w hw
    cases r with
    | exn e => simp [forwardLoop] at hw
    | ok d =>
      by_cases hemp : (d.take 4096).isEmpty = true
      · simp [forwardLoop, hemp] at hw
      · cases sends with
        | nil => simp [forwardLoop, hemp] at hw
        | cons s ss =>
          cases s with
          | exn e => simp [forwardLoop, hemp] at hw
          | sent =>
            simp [forwardLoop, hemp] at hw
            rcases hw with h | h
            · subst h; exact List.length_take_le 4096 d
            · exact ih ss w h

theorem forward_writes (recvs : List RecvResult) (sends : List SendResult)
    (src dst : PyConn) (srcErr dstErr : Option String) :
    (forward recvs sends src dst srcErr dstErr).writes
      = (forwardLoop recvs sends).1 := by
  unfold forward
  by_cases hb : (forwardLoop recvs sends).2.isBlocked = true
  · simp [hb]
  · simp [hb]

theorem forward_term (recvs : List RecvResult) (sends : List SendResult)
    (src dst : PyConn) (srcErr dstErr : Option String) :
    (forward recvs sends src dst srcErr dstErr).term
      = (forwardLoop recvs sends).2 := by
  unfold forward
  by_cases hb : (forwardLoop recvs sends).2.isBlocked = true
  · simp [hb]
  · simp [hb]

theorem runLoop_length (evs : List AcceptEvent)
    (h : evs.all (fun ev => !ev.dialStalls) = true) :
    (runLoop evs).length = evs.length := by
  induction evs with
  | nil => rfl
  | cons ev rest ih =>
    simp only [List.all_cons, Bool.and_eq_true] at h
    obtain ⟨h1, h2⟩ := h
    cases ev with
    | acceptErr e => simp [runLoop, ih h2]
    | conn d b =>
      cases d with
      | ok => simp [runLoop, ih h2]
      | sockErr e => simp [runLoop, ih h2]
      | connErr e => simp [runLoop, ih h2]
      | stalled => simp [AcceptEvent.dialStalls] at h1

/-- Claim C2: over a session in which the client-to-peer task reads the
non-empty chunks cs followed by a zero-length read, and the peer-to-client
task reads ds followed by a zero-length read, each copy task writes exactly
its chunks to its destination, in order (so the destination receives their
exact concatenation with no truncation or duplication) and terminates with
a clean EOF; and every chunk any run of the copy loop ever writes has
length at most 4096, the recv bound. -/
theorem C2_stream_fidelity (cs ds : List (List Nat))
    (restR restR2 : List RecvResult) (restS restS2 : List SendResult)
    (client peer : PyConn) (e1 e2 e3 e4 : Option String)
    (hcs : cs.all (fun c => !c.isEmpty && decide (c.length ≤ 4096)) = true)
    (hds : ds.all (fun c => !c.isEmpty && decide (c.length ≤ 4096)) = true) :
    (relaySession (cs.map RecvResult.ok ++ RecvResult.ok [] :: restR)
        (List.replicate cs.length SendResult.sent ++ restS)
        (ds.map RecvResult.ok ++ RecvResult.ok [] :: restR2)
        (List.replicate ds.length SendResult.sent ++ restS2)
        client peer e1 e2 e3 e4).1.writes = cs ∧
    (relaySession (cs.map RecvResult.ok ++ RecvResult.ok [] :: restR)
        (List.replicate cs.length SendResult.sent ++ restS)
        (ds.map RecvResult.ok ++ RecvResult.ok [] :: restR2)
        (List.replicate ds.length SendResult.sent ++ restS2)
        client peer e1 e2 e3 e4).1.term = TermKind.eof ∧
    (relaySession (cs.map RecvResult.ok ++ RecvResult.ok [] :: restR)
        (List.replicate cs.length SendResult.sent ++ restS)
        (ds.map RecvResult.ok ++ RecvResult.ok [] :: restR2)
        (List.replicate ds.length SendResult.sent ++ restS2)
        client peer e1 e2 e3 e4).2.writes = ds ∧
    (relaySession (cs.map RecvResult.ok ++ RecvResult.ok [] :: restR)
        (List.replicate cs.length SendResult.sent ++ restS)
        (ds.map RecvResult.ok ++ RecvResult.ok [] :: restR2)
        (List.replicate ds.length SendResult.sent ++ restS2)
        client peer e1 e2 e3 e4).2.term = TermKind.eof ∧
    (∀ (recvs : List RecvResult) (sends : List SendResult)
      (src dst : PyConn) (sErr dErr : Option String) (w : List Nat),
      w ∈ (forward recvs sends src dst sErr dErr).writes
        → w.length ≤ 4096) := by
  have hcs' : ∀ c ∈ cs, c.isEmpty = false ∧ c.length ≤ 4096 := by
    intro c hc
    have h := List.all_eq_true.mp hcs c hc
    simp only [Bool.and_eq_true, Bool.not_eq_true', decide_eq_true_eq] at h
    exact h
  have hds' : ∀ c ∈ ds, c.isEmpty = false ∧ c.length ≤ 4096 := by
    intro c hc
    have h := List.all_eq_true.mp hds c hc
    simp only [Bool.and_eq_true, Bool.not_eq_true', decide_eq_true_eq] at h
    exact h
  refine ⟨?_, ?_, ?_, ?_, ?_⟩
  · simp [relaySession, forward_writes, forwardLoop_clean cs restR restS hcs']
  · simp [relaySession, forward_term, forwardLoop_clean cs restR restS hcs']
  · simp [relaySession, forward_writes, forwardLoop_clean ds restR2 restS2 hds']
  · simp [relaySession, forward_term, forwardLoop_clean ds restR2 restS2 hds']
  · intro recvs sends src dst sErr dErr w hw
    exact forwardLoop_chunk_le recvs sends w
      (by simpa [forward_writes] using hw)

/-- Witness for claim C2 at a concrete session: chunks [1,2] then [3] in
one direction and [9] in the other. -/
theorem C2_stream_fidelity_witness :
    ([[1, 2], [3]] : List (List Nat)).all
        (fun c => !c.isEmpty && decide (c.length ≤ 4096)) = true ∧
    ([[9]] : List (List Nat)).all
        (fun c => !c.isEmpty && decide (c.length ≤ 4096)) = true ∧
    (relaySession
        [RecvResult.ok [1, 2], RecvResult.ok [3], RecvResult.ok []]
        [SendResult.sent, SendResult.sent]
        [RecvResult.ok [9], RecvResult.ok []]
        [SendResult.sent]
        { isOpen := true } { isOpen := true }
        none none none none).1.writes = [[1, 2], [3]] ∧
    (relaySession
        [RecvResult.ok [1, 2], RecvResult.ok [3], RecvResult.ok []]
        [SendResult.sent, SendResult.sent]
        [RecvResult.ok [9], RecvResult.ok []]
        [SendResult.sent]
        { isOpen := true } { isOpen := true }
        none none none none).2.writes = [[9]] := by
  have h := C2_stream_fidelity [[1, 2], [3]] [[9]] [] [] [] []
    { isOpen := true } { isOpen := true } none none none none
    (by decide) (by decide)
  exact ⟨by decide, by decide, by simpa using h.1, by simpa using h.2.2.1⟩

/-- Claim C5 counterexample: a copy task that terminates on a clean EOF
with both sockets still open, whose src.close() call raises an
operating-system error, leaves the destination socket OPEN: the raising
first statement of the finally clause skips dst.close(), so there is a
termination path on which the task does not close both connections of its
session. -/
theorem C5_counterexample :
    (forward [RecvResult.ok []] [] { isOpen := true } { isOpen := true }
        (some "ENOSPC") none).term = TermKind.eof ∧
    (forward [RecvResult.ok []] [] { isOpen := true } { isOpen := true }
        (some "ENOSPC") none).srcClosed = true ∧
    (forward [RecvResult.ok []] [] { isOpen := true } { isOpen := true }
        (some "ENOSPC") none).dstClosed = false ∧
    (forward [RecvResult.ok []] [] { isOpen := true } { isOpen := true }
        (some "ENOSPC") none).closeRaised = some "ENOSPC" :=
  ⟨rfl, rfl, rfl, rfl⟩

/-- Claim C5 amended: whenever a copy task's loop terminates, on a clean
EOF, a read error, or a write error (every non-blocked termination kind),
the finally clause closes the task's source socket and then its destination
socket; the source socket always ends closed, and the destination socket
ends closed whenever the source close does not raise — in particular
always when the close calls succeed or the source socket was already
closed by the sibling task.  Only a source close that itself raises an
operating-system error can leave the destination open (see the
counterexample). -/
theorem C5_closes_both (recvs : List RecvResult) (sends : List SendResult)
    (src dst : PyConn) (srcErr dstErr : Option String)
    (h : (forward recvs sends src dst srcErr dstErr).term.isBlocked
      = false) :
    (forward recvs sends src dst srcErr dstErr).srcClosed = true ∧
    ((pyClose srcErr src).2 = none →
      (forward recvs sends src dst srcErr dstErr).dstClosed = true) := by
  rw [forward_term] at h
  obtain ⟨so⟩ := src
  obtain ⟨dO⟩ := dst
  cases so <;> cases dO <;> cases srcErr <;> cases dstErr <;>
    simp [forward, h, closeBoth, pyClose]

/-- Witness for the amended claim C5 at a concrete run that ends in a
clean EOF with both sockets open and close calls that raise nothing. -/
theorem C5_closes_both_witness :
    (forward [RecvResult.ok []] [] { isOpen := true } { isOpen := true }
        none none).term.isBlocked = false ∧
    (pyClose none { isOpen := true }).2 = none ∧
    (forward [RecvResult.ok []] [] { isOpen := true } { isOpen := true }
        none none).srcClosed = true ∧
    (forward [RecvResult.ok []] [] { isOpen := true } { isOpen := true }
        none none).dstClosed = true :=
  ⟨rfl, rfl,
   (C5_closes_both [RecvResult.ok []] [] { isOpen := true }
     { isOpen := true } none none rfl).1,
   (C5_closes_both [RecvResult.ok []] [] { isOpen := true }
     { isOpen := true } none none rfl).2 rfl⟩

/-- Claim C6: socket close is idempotent — in any interleaving of the close
calls issued by the two tasks of a session (each task closes both sockets),
a close that finds its socket already closed is a no-op that raises
nothing, whatever error the operating system oracle would have produced on
a live descriptor. -/
theorem C6_idempotent_close (ops : List (CloseOp × Option String))
    (s : SessConns) (pr : Bool × Option String)
    (h : pr ∈ (runCloses ops s).2) (ha : pr.1 = true) :
    pr.2 = none := by
  induction ops generalizing s with
  | nil => simp [runCloses] at h
  | cons op rest ih =>
    obtain ⟨o, e⟩ := op
    cases o with
    | closeClient =>
      simp only [runCloses, List.mem_cons] at h
      rcases h with h | h
      · subst h
        simp only at ha
        have hclosed : s.client.isOpen = false := by simpa using ha
        simp [pyClose, hclosed]
      · exact ih _ h
    | closePeer =>
      simp only [runCloses, List.mem_cons] at h
      rcases h with h | h
      · subst h
        simp only at ha
        have hclosed : s.peer.isOpen = false := by simpa using ha
        simp [pyClose, hclosed]
      · exact ih _ h

/-- Witness for claim C6: both tasks close both sockets of one session; the
third close finds the client socket already closed and raises nothing even
though its operating system oracle is an error. -/
theorem C6_idempotent_close_witness :
    ((true, (none : Option String)) ∈ (runCloses
        [(CloseOp.closeClient, none), (CloseOp.closePeer, none),
         (CloseOp.closeClient, some "EBADF"), (CloseOp.closePeer, some "EBADF")]
        { client := { isOpen := true }, peer := { isOpen := true } }).2) ∧
    ((true, (none : Option String)).2 = none) :=
  ⟨by decide,
   C6_idempotent_close
     [(CloseOp.closeClient, none), (CloseOp.closePeer, none),
      (CloseOp.closeClient, some "EBADF"), (CloseOp.closePeer, some "EBADF")]
     { client := { isOpen := true }, peer := { isOpen := true } }
     (true, none) (by decide) rfl⟩

/-- Claim C7: every exception raised inside one iteration of the accept
loop is caught there and logged, and the loop continues with the rest of
the trace: a failed accept, a failed socket creation, a failed connect, and
a started session (stalled or not) all leave the listener accepting. -/
theorem C7_listener_survives (e : String) (b : Bool)
    (rest : List AcceptEvent) :
    runLoop (AcceptEvent.acceptErr e :: rest)
      = EventOutcome.acceptErrLogged e :: runLoop rest ∧
    runLoop (AcceptEvent.conn (DialResult.sockErr e) b :: rest)
      = EventOutcome.sockErrLogged e :: runLoop rest ∧
    runLoop (AcceptEvent.conn (DialResult.connErr e) b :: rest)
      = EventOutcome.connErrClientClosed e :: runLoop rest ∧
    runLoop (AcceptEvent.conn DialResult.ok b :: rest)
      = EventOutcome.sessionStarted b :: runLoop rest :=
  ⟨rfl, rfl, rfl, rfl⟩

/-- Claim C8: get_local_cid never propagates a failure: a failing CID query
yields the fallback CID 2 together with a log line, and a successful query
yields the queried CID with no log line. -/
theorem C8_local_cid_fallback (e : String) (n : Nat) :
    get_local_cid (Except.error e)
      = (2, some ("Error getting local CID: " ++ e)) ∧
    get_local_cid (Except.ok n) = (n, none) :=
  ⟨rfl, rfl⟩

/-- Claim C1 counterexample: at a concrete invocation whose bind fails with
address already in use, the process terminates with exit status 0, not with
the non-zero status the claim requires.  The bind exception is caught by
the outer handler of forward_tcp_to_vsock, a Server error line is printed,
and the script then falls off the end of the file. -/
theorem C1_counterexample :
    (pyMain ["tcp-vsock-forwarder.py", "3000", "17", "3000"] (Except.ok 3)
        { bindRes := Except.error "Address already in use"
          listenRes := Except.ok (), events := [] }).exit = some 0 ∧
    (pyMain ["tcp-vsock-forwarder.py", "3000", "17", "3000"] (Except.ok 3)
        { bindRes := Except.error "Address already in use"
          listenRes := Except.ok (), events := [] }).exitedNonzero = false :=
  ⟨rfl, rfl⟩

/-- Claim C1 amended: if the listener cannot bind the local TCP port, the
process reports the error (a Server error line), starts no relay, closes
the listener socket, and exits with status ZERO: the exception is caught
and logged, so termination is not by a non-zero exit status. -/
theorem C1_bind_failure (argv : List String) (q : Except String Nat)
    (lr : Except String Unit) (evs : List AcceptEvent) (e : String)
    (h4 : argv.length = 4)
    (h1 : (pyParseInt (argv.getD 1 "")).isSome = true)
    (h2 : (pyParseInt (argv.getD 2 "")).isSome = true)
    (h3 : (pyParseInt (argv.getD 3 "")).isSome = true) :
    pyMain argv q { bindRes := Except.error e, listenRes := lr, events := evs }
      = { usagePrinted := false, exit := some 0, socketCreated := true,
          localCid := some (get_local_cid q).1,
          server := some { bound := false,
                           serverErrPrinted := some ("Server error: " ++ e),
                           serverClosed := true, outcomes := [],
                           returned := true } } := by
  obtain ⟨v1, hv1⟩ := Option.isSome_iff_exists.mp h1
  obtain ⟨v2, hv2⟩ := Option.isSome_iff_exists.mp h2
  obtain ⟨v3, hv3⟩ := Option.isSome_iff_exists.mp h3
  have hif : ¬(argv.length ≠ 4) := fun hn => hn h4
  unfold pyMain
  rw [if_neg hif, hv1, hv2, hv3]
  simp [forward_tcp_to_vsock]

/-- Witness for the amended claim C1 at a concrete invocation. -/
theorem C1_bind_failure_witness :
    (["tcp-vsock-forwarder.py", "3000", "17", "3000"] : List String).length
        = 4 ∧
    (pyParseInt "3000").isSome = true ∧
    pyMain ["tcp-vsock-forwarder.py", "3000", "17", "3000"] (Except.ok 3)
        { bindRes := Except.error "Address already in use",
          listenRes := Except.ok (), events := [] }
      = { usagePrinted := false, exit := some 0, socketCreated := true,
          localCid := some 3,
          server := some { bound := false,
                           serverErrPrinted :=
                             some "Server error: Address already in use",
                           serverClosed := true, outcomes := [],
                           returned := true } } :=
  ⟨rfl, rfl,
   C1_bind_failure ["tcp-vsock-forwarder.py", "3000", "17", "3000"]
     (Except.ok 3) (Except.ok ()) [] "Address already in use"
     rfl rfl rfl rfl⟩

/-- Claim C3 counterexample: the dial to the enclave endpoint runs
synchronously on the accept loop thread, so a stalled dial for the first
connection leaves a second pending connection never accepted: the loop
trace stops at the blocked dial instead of containing two outcomes. -/
theorem C3_counterexample :
    runLoop [AcceptEvent.conn DialResult.stalled false,
             AcceptEvent.conn DialResult.ok false]
      = [EventOutcome.dialBlocked] ∧
    (runLoop [AcceptEvent.conn DialResult.stalled false,
              AcceptEvent.conn DialResult.ok false]).length ≠ 2 :=
  ⟨rfl, by decide⟩

/-- Claim C3 amended: relaying is handed off to per-connection daemon
threads, so the accept loop continues past a connection even when its relay
session stalls forever, and as long as no dial stalls the loop processes
every event of its trace; but the dial itself runs synchronously on the
accept loop thread, so a stalled dial does stall the acceptance of new
connections (see the counterexample). -/
theorem C3_accept_loop_handoff (b : Bool) (rest evs : List AcceptEvent)
    (h : evs.all (fun ev => !ev.dialStalls) = true) :
    runLoop (AcceptEvent.conn DialResult.ok b :: rest)
      = EventOutcome.sessionStarted b :: runLoop rest ∧
    (runLoop evs).length = evs.length :=
  ⟨rfl, runLoop_length evs h⟩

/-- Witness for the amended claim C3: a session that stalls forever
(relayStalls true) does not keep the next accept from happening. -/
theorem C3_accept_loop_handoff_witness :
    ([AcceptEvent.conn DialResult.ok true, AcceptEvent.acceptErr "x"]
        : List AcceptEvent).all (fun ev => !ev.dialStalls) = true ∧
    (runLoop (AcceptEvent.conn DialResult.ok true
        :: [AcceptEvent.acceptErr "x"])
      = EventOutcome.sessionStarted true :: runLoop [AcceptEvent.acceptErr "x"] ∧
    (runLoop [AcceptEvent.conn DialResult.ok true, AcceptEvent.acceptErr "x"]).length
      = ([AcceptEvent.conn DialResult.ok true, AcceptEvent.acceptErr "x"]
          : List AcceptEvent).length) :=
  ⟨by decide,
   C3_accept_loop_handoff true [AcceptEvent.acceptErr "x"]
     [AcceptEvent.conn DialResult.ok true, AcceptEvent.acceptErr "x"]
     (by decide)⟩

/-- Claim C4 counterexample: when the VSOCK socket creation itself raises
(line 46 sits outside the inner try), the exception lands in the outer
accept loop handler, which logs it but does NOT close the already accepted
client socket, contrary to the claim that the client connection is closed
for any dial failure including socket creation. -/
theorem C4_counterexample :
    runLoop [AcceptEvent.conn (DialResult.sockErr "AF_VSOCK unsupported") false]
      = [EventOutcome.sockErrLogged "AF_VSOCK unsupported"] ∧
    EventOutcome.closesClient
      (EventOutcome.sockErrLogged "AF_VSOCK unsupported") = false :=
  ⟨rfl, rfl⟩

/-- Claim C4 amended: when the connect call to the enclave endpoint fails,
the accepted client socket is closed, no relay session is started, and the
listener continues with the rest of the trace; when the VSOCK socket
creation fails, no session is started and the listener also continues, but
the client socket is not explicitly closed by the handler. -/
theorem C4_dial_failure (e : String) (b : Bool) (rest : List AcceptEvent) :
    runLoop (AcceptEvent.conn (DialResult.connErr e) b :: rest)
      = EventOutcome.connErrClientClosed e :: runLoop rest ∧
    EventOutcome.closesClient (EventOutcome.connErrClientClosed e) = true ∧
    EventOutcome.startsSession (EventOutcome.connErrClientClosed e) = false ∧
    runLoop (AcceptEvent.conn (DialResult.sockErr e) b :: rest)
      = EventOutcome.sockErrLogged e :: runLoop rest ∧
    EventOutcome.closesClient (EventOutcome.sockErrLogged e) = false ∧
    EventOutcome.startsSession (EventOutcome.sockErrLogged e) = false :=
  ⟨rfl, rfl, rfl, rfl, rfl, rfl⟩

/-- Claim C9: an invocation whose argv does not carry exactly three
positional arguments (argv length different from 4, counting the program
name) prints the usage message to standard output and exits with status 1,
before any socket is created or bound. -/
theorem C9_wrong_arity (argv : List String) (q : Except String Nat)
    (env : ServerEnv) (h : argv.length ≠ 4) :
    pyMain argv q env
      = { usagePrinted := true, exit := some 1, socketCreated := false
          localCid := none, server := none } := by
  simp [pyMain, h]

/-- Witness for claim C9 at a concrete invocation with no arguments. -/
theorem C9_wrong_arity_witness :
    (["tcp-vsock-forwarder.py"] : List String).length ≠ 4 ∧
    pyMain ["tcp-vsock-forwarder.py"] (Except.ok 3)
        { bindRes := Except.ok (), listenRes := Except.ok (), events := [] }
      = { usagePrinted := true, exit := some 1, socketCreated := false
          localCid := none, server := none } :=
  ⟨by decide,
   C9_wrong_arity ["tcp-vsock-forwarder.py"] (Except.ok 3)
     { bindRes := Except.ok (), listenRes := Except.ok (), events := [] }
     (by decide)⟩

/-- Claim C10: with exactly three positional arguments, a non-integer
argument makes int() raise an uncaught ValueError, so the process exits
with status 1 having printed no usage message and created no socket; and no
range check is applied to arguments that do parse: the out-of-range port
70000 and VSOCK port 99999 flow straight into the server phase. -/
theorem C10_int_parse (argv : List String) (q : Except String Nat)
    (env : ServerEnv) (h4 : argv.length = 4)
    (hbad : pyParseInt (argv.getD 1 "") = none ∨
            pyParseInt (argv.getD 2 "") = none ∨
            pyParseInt (argv.getD 3 "") = none) :
    pyMain argv q env
      = { usagePrinted := false, exit := some 1, socketCreated := false
          localCid := none, server := none } ∧
    (∀ (q2 : Except String Nat) (env2 : ServerEnv),
      (pyMain ["tcp-vsock-forwarder.py", "70000", "17", "99999"] q2 env2).server
        = some (forward_tcp_to_vsock env2)) := by
  constructor
  · have hif : ¬(argv.length ≠ 4) := fun hn => hn h4
    unfold pyMain
    rw [if_neg hif]
    rcases hbad with h | h | h
    · rw [h]
    · cases hp1 : pyParseInt (argv.getD 1 "") with
      | none => rfl
      | some v1 => rw [h]
    · cases hp1 : pyParseInt (argv.getD 1 "") with
      | none => rfl
      | some v1 =>
        cases hp2 : pyParseInt (argv.getD 2 "") with
        | none => rfl
        | some v2 => rw [h]
  · intro q2 env2
    rfl

/-- Witness for claim C10 at a concrete invocation with a non-numeric
port argument, plus the no-range-check conjunct instantiated. -/
theorem C10_int_parse_witness :
    (["tcp-vsock-forwarder.py", "abc", "17", "3000"] : List String).length
        = 4 ∧
    pyParseInt "abc" = none ∧
    pyMain ["tcp-vsock-forwarder.py", "abc", "17", "3000"] (Except.ok 3)
        { bindRes := Except.ok (), listenRes := Except.ok (), events := [] }
      = { usagePrinted := false, exit := some 1, socketCreated := false
          localCid := none, server := none } ∧
    (pyMain ["tcp-vsock-forwarder.py", "70000", "17", "99999"] (Except.ok 3)
        { bindRes := Except.ok (), listenRes := Except.ok (), events := [] }).server
      = some (forward_tcp_to_vsock
          { bindRes := Except.ok (), listenRes := Except.ok (), events := [] }) :=
  ⟨rfl, rfl,
   (C10_int_parse ["tcp-vsock-forwarder.py", "abc", "17", "3000"]
     (Except.ok 3)
     { bindRes := Except.ok (), listenRes := Except.ok (), events := [] }
     rfl (Or.inl rfl)).1,
   (C10_int_parse ["tcp-vsock-forwarder.py", "abc", "17", "3000"]
     (Except.ok 3)
     { bindRes := Except.ok (), listenRes := Except.ok (), events := [] }
     rfl (Or.inl rfl)).2 (Except.ok 3)
     { bindRes := Except.ok (), listenRes := Except.ok (), events := [] }⟩

end TcpVsockForwarder
